import Mathlib

/-!
Verification of the Diagnostic Orchestration Engine (failure classification,
probe planning, bounded-parallel collection, confidence scoring) against its
natural-language specification.  The Python sources `src/parser.py` and
`src/orchestrator.py` are shallowly embedded below: text is `List Char`,
each compiled regular expression is transcribed as an explicit leftmost-match
scanner (the individual patterns are simple enough that greedy max-munch
matching coincides with backtracking search, except for the log-URL pattern
where the backtracking behaviour is modelled explicitly), Python values that
flow through the diagnostic context are a `PyVal` sum type with Python
truthiness, floats are modelled as exact rationals, and the thread-pool
collection phase is modelled as a fold over the completion order of the
futures together with a flag recording whether the global deadline elapsed
with futures still outstanding (in which case `as_completed` raises).
-/

namespace OnCallDE

abbrev Text := List Char

/-- Coerce a string literal to the `Text` representation. -/
def T (s : String) : Text := s.data

/-- Python `\s` for the ASCII range (the texts in play are ASCII). -/
def isWS (c : Char) : Bool :=
  c == ' ' || c == '\t' || c == '\n' || c == '\x0d' || c == '\x0b' || c == '\x0c'

/-- Case-insensitive character comparison, as under `re.IGNORECASE`. -/
def lowEq (a b : Char) : Bool := a.toLower == b.toLower

/-- Python `str.lower()` (ASCII). -/
def toLowerT (t : Text) : Text := t.map Char.toLower

/-- Match a literal case-insensitively at the head of the text, returning the
remainder on success (`lit` first, then the text). -/
def dropLitCI : Text → Text → Option Text
  | [], t => some t
  | _ :: _, [] => none
  | l :: ls, c :: cs => if lowEq l c then dropLitCI ls cs else none

/-- Exact (case-sensitive) head matching, for Python's `in` operator. -/
def isPrefT : Text → Text → Bool
  | [], _ => true
  | _ :: _, [] => false
  | a :: as, b :: bs => a == b && isPrefT as bs

/-- Python `needle in hay` (exact substring containment). -/
def containsSub (hay needle : Text) : Bool :=
  match hay with
  | [] => needle.isEmpty
  | _ :: r => isPrefT needle hay || containsSub r needle

/-- Run a single-position matcher at every start position, left to right, and
return the first success — the search behaviour of `re.search`. -/
def scanFirst (m : Text → Option α) : Text → Option α
  | [] => m []
  | c :: r =>
    match m (c :: r) with
    | some x => some x
    | none => scanFirst m r

/-- Boolean variant of `scanFirst`. -/
def anyPos (f : Text → Bool) : Text → Bool
  | [] => f []
  | c :: r => f (c :: r) || anyPos f r

/-- Pattern `\s+` (greedy): require at least one whitespace character, drop the run. -/
def ws1 (t : Text) : Option Text :=
  match t with
  | c :: r => if isWS c then some (r.dropWhile isWS) else none
  | [] => none

/-- Class `[a-zA-Z_]`. -/
def identStart (c : Char) : Bool := c.isAlpha || c == '_'

/-- Class `[a-zA-Z0-9_]`, optionally extended with `.` as some patterns allow. -/
def identTail (dot : Bool) (c : Char) : Bool :=
  c.isAlphanum || c == '_' || (dot && c == '.')

/-- Greedy identifier capture `[a-zA-Z_][a-zA-Z0-9_(.)]*` at the head of the
text; returns the capture and the remainder. -/
def takeIdent (dot : Bool) (t : Text) : Option (Text × Text) :=
  match t with
  | c :: r =>
    if identStart c then
      some (c :: r.takeWhile (identTail dot), r.dropWhile (identTail dot))
    else none
  | [] => none

/-! ### The compiled patterns of `MessageParser` (src/parser.py) -/

/-- Pattern `AIRFLOW_PATTERNS['dag_failure']`:
`DAG\s+([a-zA-Z_][a-zA-Z0-9_]*)\s+(?:failed|error)` at one position. -/
def dagFailureAt (t : Text) : Option Text := do
  let t1 ← dropLitCI (T "dag") t
  let t2 ← ws1 t1
  let (id0, t3) ← takeIdent false t2
  let t4 ← ws1 t3
  if (dropLitCI (T "failed") t4).isSome || (dropLitCI (T "error") t4).isSome then
    some id0
  else none

/-- Pattern `AIRFLOW_PATTERNS['task_failure']`:
`Task\s+([a-zA-Z_][a-zA-Z0-9_\.]*)\s+in\s+DAG\s+([a-zA-Z_][a-zA-Z0-9_]*)`. -/
def taskFailureAt (t : Text) : Option (Text × Text) := do
  let t1 ← dropLitCI (T "task") t
  let t2 ← ws1 t1
  let (tid, t3) ← takeIdent true t2
  let t4 ← ws1 t3
  let t5 ← dropLitCI (T "in") t4
  let t6 ← ws1 t5
  let t7 ← dropLitCI (T "dag") t6
  let t8 ← ws1 t7
  let (did, _) ← takeIdent false t8
  some (tid, did)

/-- Matches `:` or whitespace, the class `[:\s]` of the generic fallback patterns. -/
def colonWS (c : Char) : Bool := c == ':' || isWS c

/-- Fallback pattern `dag[:\s]+([a-zA-Z_][a-zA-Z0-9_]*)` of `_extract_dag_id`. -/
def genericDagAt (t : Text) : Option Text := do
  let t1 ← dropLitCI (T "dag") t
  match t1 with
  | c :: r =>
    if colonWS c then (takeIdent false (r.dropWhile colonWS)).map (·.1) else none
  | [] => none

/-- Fallback pattern `task[:\s]+([a-zA-Z_][a-zA-Z0-9_\.]*)` of
`_extract_task_id`. -/
def genericTaskAt (t : Text) : Option Text := do
  let t1 ← dropLitCI (T "task") t
  match t1 with
  | c :: r =>
    if colonWS c then (takeIdent true (r.dropWhile colonWS)).map (·.1) else none
  | [] => none

/-- Character class `[0-9T:\-\+Z]` under `re.IGNORECASE`. -/
def dateClass (c : Char) : Bool :=
  c.isDigit || c == 'T' || c == 't' || c == ':' || c == '-' || c == '+' ||
    c == 'Z' || c == 'z'

/-- Pattern `AIRFLOW_PATTERNS['execution_date']`:
`(?:execution_date|run_id):\s*([0-9T:\-\+Z]+)`. -/
def execDateAt (t : Text) : Option Text := do
  let t1 ←
    match dropLitCI (T "execution_date") t with
    | some r => some r
    | none => dropLitCI (T "run_id") t
  let t2 ← match t1 with | ':' :: r => some r | _ => none
  match t2.dropWhile isWS with
  | c :: r => if dateClass c then some (c :: r.takeWhile dateClass) else none
  | [] => none

/-- Fallback ISO date pattern `20\d{2}-\d{2}-\d{2}[T\s]\d{2}:\d{2}:\d{2}`
of `_extract_execution_date` (compiled without flags). -/
def isoDateAt (t : Text) : Option Text :=
  match t with
  | '2' :: '0' :: y1 :: y2 :: '-' :: m1 :: m2 :: '-' :: d1 :: d2 :: s ::
      h1 :: h2 :: ':' :: n1 :: n2 :: ':' :: e1 :: e2 :: _ =>
    if y1.isDigit && y2.isDigit && m1.isDigit && m2.isDigit && d1.isDigit &&
        d2.isDigit && (s == 'T' || isWS s) && h1.isDigit && h2.isDigit &&
        n1.isDigit && n2.isDigit && e1.isDigit && e2.isDigit then
      some ['2', '0', y1, y2, '-', m1, m2, '-', d1, d2, s, h1, h2, ':',
        n1, n2, ':', e1, e2]
    else none
  | _ => none

/-- Does `log` or `airflow` occur (case-insensitively) somewhere in `t`? -/
def containsTokenCI : Text → Bool
  | [] => false
  | c :: r =>
    (dropLitCI (T "log") (c :: r)).isSome ||
    (dropLitCI (T "airflow") (c :: r)).isSome || containsTokenCI r

/-- Pattern `AIRFLOW_PATTERNS['log_url']`: `(https?://[^\s]+(?:log|airflow)[^\s]*)`.
After `https?://` the backtracking search succeeds iff `log` or `airflow`
occurs in the following non-whitespace run at offset at least 1 (so that
`[^\s]+` is non-empty), and the trailing greedy `[^\s]*` always extends the
capture to the end of that run. -/
def logUrlAt (t : Text) : Option Text := do
  let t0 ← dropLitCI (T "http") t
  let (pre, t1) ←
    match dropLitCI (T "s://") t0 with
    | some r => some (8, r)
    | none => (dropLitCI (T "://") t0).map (fun r => (7, r))
  let run := t1.takeWhile (fun c => !isWS c)
  match run with
  | [] => none
  | _ :: rest => if containsTokenCI rest then some (t.take (pre + run.length)) else none

/-- Pattern `AIRFLOW_PATTERNS['exception']`: `(?:Exception|Error):\s*([^\n]+)`.
The greedy `\s*` backtracks just enough for `[^\n]+` to be non-empty: if any
non-whitespace character follows, the capture runs from the first one to the
next newline; if only whitespace follows, the capture is the last character
of it that is not a newline (when one exists). -/
def excAt (t : Text) : Option Text := do
  let t1 ←
    match dropLitCI (T "exception") t with
    | some r => some r
    | none => dropLitCI (T "error") t
  let t2 ← match t1 with | ':' :: r => some r | _ => none
  let v := t2.dropWhile isWS
  match v with
  | c :: r => some (c :: r.takeWhile (fun x => x != '\n'))
  | [] =>
    match t2.reverse.dropWhile (fun x => x == '\n') with
    | c :: _ => some [c]
    | [] => none

/-! ### ERROR_TYPE_PATTERNS searches (booleans, order as in the dict) -/

/-- Case-insensitive substring search, `pattern.search` for a plain literal. -/
def searchCI (t : Text) (lit : String) : Bool := containsSub (toLowerT t) (T lit)

/-- A chain of literals separated by `\s*`, matched at one position. -/
def chainWs : List Text → Text → Bool
  | [], _ => true
  | l :: ls, t =>
    match dropLitCI l t with
    | some r => chainWs ls (r.dropWhile isWS)
    | none => false

/-- Pattern `timed?\s*out` at one position. -/
def timedOutAt (t : Text) : Bool :=
  match dropLitCI (T "time") t with
  | none => false
  | some t1 =>
    (dropLitCI (T "out") (t1.dropWhile isWS)).isSome ||
    (match t1 with
     | c :: r => lowEq 'd' c && (dropLitCI (T "out") (r.dropWhile isWS)).isSome
     | [] => false)

/-- Split on `'\n'`, keeping empty pieces — Python `text.split('\n')`. -/
def splitLines : Text → List Text
  | [] => [[]]
  | '\n' :: r => [] :: splitLines r
  | c :: r =>
    match splitLines r with
    | l :: ls => (c :: l) :: ls
    | [] => [[c]]

/-- Find the first case-insensitive occurrence of `w`, returning the text
right after it. -/
def findAfter (w : Text) : Text → Option Text
  | [] => if w.isEmpty then some [] else none
  | c :: r =>
    match dropLitCI w (c :: r) with
    | some tail => some tail
    | none => findAfter w r

/-- The words in order with arbitrary gaps (`w1.*w2.*…` within one line,
since `.` does not match a newline). -/
def seqCI : List Text → Text → Bool
  | [], _ => true
  | w :: ws, t =>
    match findAfter w t with
    | some tail => seqCI ws tail
    | none => false

/-- A `.*`-joined word sequence matches somewhere in the text iff it matches
within some newline-delimited line. -/
def seqInSomeLine (ws : List Text) (t : Text) : Bool :=
  (splitLines t).any (seqCI ws)

/-- Pattern `(?i)timeout|timed?\s*out`. -/
def patTimeout (t : Text) : Bool := searchCI t "timeout" || anyPos timedOutAt t

/-- Pattern `(?i)connection|network|unreachable`. -/
def patConnection (t : Text) : Bool :=
  searchCI t "connection" || searchCI t "network" || searchCI t "unreachable"

/-- Pattern `(?i)memory|oom|out\s*of\s*memory`. -/
def patMemory (t : Text) : Bool :=
  searchCI t "memory" || searchCI t "oom" ||
    anyPos (chainWs [T "out", T "of", T "memory"]) t

/-- Pattern `(?i)permission|access\s*denied|unauthorized`. -/
def patPermission (t : Text) : Bool :=
  searchCI t "permission" || anyPos (chainWs [T "access", T "denied"]) t ||
    searchCI t "unauthorized"

/-- Pattern `(?i)sql|query|database|relation.*does.*not.*exist`. -/
def patSql (t : Text) : Bool :=
  searchCI t "sql" || searchCI t "query" || searchCI t "database" ||
    seqInSomeLine [T "relation", T "does", T "not", T "exist"] t

/-- Pattern `(?i)dbt|compilation|model.*failed`. -/
def patDbt (t : Text) : Bool :=
  searchCI t "dbt" || searchCI t "compilation" ||
    seqInSomeLine [T "model", T "failed"] t

/-- Pattern `(?i)python|import|module|syntax`. -/
def patPython (t : Text) : Bool :=
  searchCI t "python" || searchCI t "import" || searchCI t "module" ||
    searchCI t "syntax"

/-- Pattern `(?i)disk|space|resource|quota`. -/
def patResource (t : Text) : Bool :=
  searchCI t "disk" || searchCI t "space" || searchCI t "resource" ||
    searchCI t "quota"

/-- Embeds `_classify_error_type`: the fixed dict order of `ERROR_TYPE_PATTERNS`,
first match wins, else `"general"`. -/
def classifyErrorType (t : Text) : Text :=
  if patTimeout t then T "timeout"
  else if patConnection t then T "connection"
  else if patMemory t then T "memory"
  else if patPermission t then T "permission"
  else if patSql t then T "sql"
  else if patDbt t then T "dbt"
  else if patPython t then T "python"
  else if patResource t then T "resource"
  else T "general"

/-! ### Field extraction (src/parser.py) -/

/-- Embeds `_extract_dag_id`: the priority cascade. -/
def extractDagId (t : Text) : Text :=
  match scanFirst dagFailureAt t with
  | some id0 => id0
  | none =>
    match scanFirst taskFailureAt t with
    | some (_, did) => did
    | none =>
      match scanFirst genericDagAt t with
      | some id0 => id0
      | none => T "unknown_dag"

/-- Embeds `_extract_task_id`. -/
def extractTaskId (t : Text) : Option Text :=
  match scanFirst taskFailureAt t with
  | some (tid, _) => some tid
  | none => scanFirst genericTaskAt t

/-- Embeds `_extract_execution_date`. -/
def extractExecutionDate (t : Text) : Option Text :=
  match scanFirst execDateAt t with
  | some d => some d
  | none => scanFirst isoDateAt t

/-- Embeds `_extract_log_url`. -/
def extractLogUrl (t : Text) : Option Text := scanFirst logUrlAt t

/-- Python `str.strip()` over the ASCII whitespace in play. -/
def stripT (t : Text) : Text :=
  ((t.dropWhile isWS).reverse.dropWhile isWS).reverse

/-- One line of `_extract_error_message`'s scan: does the lowered line
contain `error`, `failed` or `exception`? -/
def lineIndic (line : Text) : Bool :=
  containsSub (toLowerT line) (T "error") ||
  containsSub (toLowerT line) (T "failed") ||
  containsSub (toLowerT line) (T "exception")

/-- Python `text.split()`: maximal runs of non-whitespace. -/
def splitWS (t : Text) : List Text :=
  match t with
  | [] => []
  | c :: r =>
    if isWS c then splitWS r
    else (c :: r.takeWhile (fun x => !isWS x)) :: splitWS (r.dropWhile (fun x => !isWS x))
termination_by t.length
decreasing_by
  · simp only [List.length_cons]; omega
  · have h := (List.dropWhile_suffix (l := r) (fun x => !isWS x)).sublist.length_le
    simp only [List.length_cons]; omega

/-- Python `' '.join`. -/
def joinSp : List Text → Text
  | [] => []
  | [w] => w
  | w :: ws => w ++ ' ' :: joinSp ws

/-- Embeds `_extract_error_message`: the three-stage cascade. -/
def extractErrorMessage (t : Text) : Text :=
  match scanFirst excAt t with
  | some cap => stripT cap
  | none =>
    match (splitLines t).find? lineIndic with
    | some line => stripT line
    | none =>
      let ws := splitWS t
      joinSp (ws.take 20) ++ (if 20 < ws.length then T "..." else [])

/-- The fixed indicator list of `_is_airflow_failure`. -/
def failureIndicators : List Text :=
  [T "dag", T "task", T "airflow", T "failed", T "error", T "exception",
   T "workflow", T "pipeline", T "etl"]

/-- Embeds `_is_airflow_failure`. -/
def isAirflowFailure (t : Text) : Bool :=
  failureIndicators.any (fun ind => containsSub (toLowerT t) ind)

/-- Record `ParsedFailure` from src/parser.py. -/
structure ParsedFailure where
  dag_id : Text
  task_id : Option Text
  execution_date : Option Text
  error_type : Text
  error_message : Text
  log_url : Option Text
  channel : Text
  thread_ts : Option Text
  original_text : Text
deriving DecidableEq

/-- Embeds `_parse_failure_details`. -/
def parseFailureDetails (t channel : Text) (thread_ts : Option Text) : ParsedFailure :=
  { dag_id := extractDagId t
    task_id := extractTaskId t
    execution_date := extractExecutionDate t
    error_type := classifyErrorType t
    error_message := extractErrorMessage t
    log_url := extractLogUrl t
    channel := channel
    thread_ts := thread_ts
    original_text := t }

/-- Embeds `parse_failure_message`. -/
def parseFailureMessage (t channel : Text) (thread_ts : Option Text) : Option ParsedFailure :=
  if isAirflowFailure t then some (parseFailureDetails t channel thread_ts) else none

/-! ### Slack-event ingestion (parse_slack_event) -/

/-- A Python value as it flows through the diagnostic pipeline.  Only the
shapes that the code inspects are distinguished; `rat` stands for a float,
modelled as an exact rational. -/
inductive PyVal where
  | none : PyVal
  | str : Text → PyVal
  | list : List PyVal → PyVal
  | dict : List (Text × PyVal) → PyVal
  | int : Int → PyVal
  | rat : ℚ → PyVal

/-- Python truthiness for the values above. -/
def pyTruthy : PyVal → Bool
  | .none => false
  | .str s => !s.isEmpty
  | .list l => !l.isEmpty
  | .dict d => !d.isEmpty
  | .int n => n != 0
  | .rat q => q != 0

/-- Python `len`, defined exactly where Python's `len` is. -/
def pyLen : PyVal → Option Nat
  | .str s => some s.length
  | .list l => some l.length
  | .dict d => some d.length
  | _ => Option.none

/-- Truthiness of an optional string (Python `None` and `""` are falsy). -/
def optTruthy : Option Text → Bool
  | Option.none => false
  | some s => !s.isEmpty

/-- An optional string as a Python value. -/
def optPy : Option Text → PyVal
  | Option.none => .none
  | some s => .str s

/-- The inner `event` object of a Slack payload, with the fields
`parse_slack_event` reads (`.get('text','')`, `.get('channel','')`,
`.get('thread_ts')`, `.get('bot_id')`). -/
structure SlackMessage where
  text : Text
  channel : Text
  thread_ts : Option Text
  bot_id : PyVal

/-- A Slack payload: `eventField = none` models a payload without an
`'event'` key. -/
structure SlackEvent where
  eventField : Option SlackMessage

/-- Embeds `parse_slack_event`. -/
def parseSlackEvent (e : SlackEvent) : Option ParsedFailure :=
  match e.eventField with
  | Option.none => Option.none
  | some m =>
    if pyTruthy m.bot_id || m.text.isEmpty then Option.none
    else if !isAirflowFailure m.text then Option.none
    else some (parseFailureDetails m.text m.channel m.thread_ts)

/-! ### Task planning (src/orchestrator.py, `_plan_diagnostic_tasks`) -/

/-- The externally supplied probe functions a task can point at. -/
inductive ProbeFn where
  | checkMwaaDagState
  | getMwaaTaskLogs
  | getRecentTaskLogs
  | queryRedshiftAuditLogs
  | getRedshiftRecentErrors
  | getCloudwatchLambdaErrors
deriving DecidableEq

/-- A planned diagnostic task (`{'name': …, 'function': …, 'args': …}`). -/
structure Task where
  name : Text
  fn : ProbeFn
  args : List PyVal

/-- Embeds `_extract_model_name`: the `model`/`relation`/`table` pattern cascade
over the error message; each pattern is `<kw>\s+["`']*([a-zA-Z_]…)["`']*`. -/
def quoteChar (c : Char) : Bool := c == '"' || c == '`' || c == '\''

/-- One keyword pattern of `_extract_model_name` at one position. -/
def modelNameAt (kw : Text) (dot : Bool) (t : Text) : Option Text := do
  let t1 ← dropLitCI kw t
  let t2 ← ws1 t1
  (takeIdent dot (t2.dropWhile quoteChar)).map (·.1)

/-- Embeds `_extract_model_name` (pattern order: model, relation, table). -/
def extractModelName (msg : Text) : Option Text :=
  match scanFirst (modelNameAt (T "model") false) msg with
  | some m => some m
  | Option.none =>
    match scanFirst (modelNameAt (T "relation") true) msg with
    | some m => some m
    | Option.none => scanFirst (modelNameAt (T "table") true) msg

/-- Embeds `_plan_diagnostic_tasks`. -/
def planDiagnosticTasks (failure : ParsedFailure) : List Task :=
  let t1 : List Task := [⟨T "dag_state", .checkMwaaDagState, [.str failure.dag_id]⟩]
  let t2 : List Task :=
    if optTruthy failure.log_url then
      [⟨T "mwaa_logs", .getMwaaTaskLogs, [.str (failure.log_url.getD [])]⟩]
    else if optTruthy failure.task_id then
      [⟨T "mwaa_logs", .getRecentTaskLogs,
        [.str failure.dag_id, .str (failure.task_id.getD []),
         optPy failure.execution_date]⟩]
    else []
  let t3 : List Task :=
    if failure.error_type = T "sql" ∨ failure.error_type = T "dbt" ∨
        containsSub (toLowerT failure.error_message) (T "dbt") then
      let mn := extractModelName failure.error_message
      [⟨T "redshift_audit", .queryRedshiftAuditLogs,
        [.str (if optTruthy mn then mn.getD [] else failure.dag_id)]⟩,
       ⟨T "redshift_errors", .getRedshiftRecentErrors, [.int 24]⟩]
    else []
  let t4 : List Task :=
    if failure.error_type = T "timeout" ∨ failure.error_type = T "connection" ∨
        failure.error_type = T "python" then
      [⟨T "cloudwatch_errors", .getCloudwatchLambdaErrors, [.str failure.dag_id]⟩]
    else []
  t1 ++ t2 ++ t3 ++ t4

/-! ### The diagnostic context and result application -/

/-- Record `DiagnosticContext`: the per-diagnosis accumulator.  Slots hold whatever
Python value the probe returned (initially `None`); `context_metadata` is the
metadata dict. -/
structure DiagnosticContext where
  failure : ParsedFailure
  mwaa_logs : PyVal := .none
  redshift_audit : PyVal := .none
  cloudwatch_errors : PyVal := .none
  dag_state : PyVal := .none
  context_metadata : List (Text × PyVal) := []

/-- Dict lookup. -/
def dGet (md : List (Text × PyVal)) (k : Text) : Option PyVal :=
  match md with
  | [] => Option.none
  | (k', v) :: rest => if k' = k then some v else dGet rest k

/-- Dict update (replace in place, else append — insertion-ordered). -/
def dSet (md : List (Text × PyVal)) (k : Text) (v : PyVal) : List (Text × PyVal) :=
  match md with
  | [] => [(k, v)]
  | (k', v') :: rest => if k' = k then (k, v) :: rest else (k', v') :: dSet rest k v

/-- Embeds `_apply_diagnostic_result`.  `redshift_errors` first resets a falsy
`redshift_audit` slot to `[]` and then `extend`s it when the result is a
list; `extend` on a truthy non-list slot raises `AttributeError`, modelled
as the error case. -/
def applyDiagnosticResult (ctx : DiagnosticContext) (name : Text) (result : PyVal) :
    Except Text DiagnosticContext :=
  if name = T "dag_state" then .ok { ctx with dag_state := result }
  else if name = T "mwaa_logs" then .ok { ctx with mwaa_logs := result }
  else if name = T "redshift_audit" then .ok { ctx with redshift_audit := result }
  else if name = T "redshift_errors" then
    let ctx1 := if pyTruthy ctx.redshift_audit then ctx
                else { ctx with redshift_audit := .list [] }
    match result with
    | .list xs =>
      match ctx1.redshift_audit with
      | .list ys => .ok { ctx1 with redshift_audit := .list (ys ++ xs) }
      | _ => .error (T "AttributeError")
    | _ => .ok ctx1
  else if name = T "cloudwatch_errors" then .ok { ctx with cloudwatch_errors := result }
  else .ok ctx

/-! ### Parallel collection (`_collect_diagnostic_context`) -/

/-- What one submitted future does when it is waited on: deliver a result,
or raise (a probe exception, or its individual 30-second timeout). -/
inductive Outcome where
  | ok : PyVal → Outcome
  | exn : Text → Outcome

/-- One iteration of the `as_completed` loop: a successful task has its
result applied and its name appended to `completed_tasks`; any exception
(from the future, or from applying its result) is recorded under
`metadata[name + "_error"]` without aborting the batch. -/
def collectStep (acc : DiagnosticContext × List Text) (item : Text × Outcome) :
    DiagnosticContext × List Text :=
  let (ctx, comp) := acc
  match item.2 with
  | .exn e =>
    ({ ctx with context_metadata :=
        (dSet ctx.context_metadata (item.1 ++ T "_error") (.str e)) }, comp)
  | .ok v =>
    match applyDiagnosticResult ctx item.1 v with
    | .ok ctx' => (ctx', comp ++ [item.1])
    | .error e =>
      ({ ctx with context_metadata :=
          (dSet ctx.context_metadata (item.1 ++ T "_error") (.str e)) }, comp)

/-- Embeds `_collect_diagnostic_context`, driven by the nondeterminism of the
thread pool: `order` lists the futures yielded by `as_completed` in
completion order with their outcomes, and `hitDeadline` records that the
global timeout elapsed with futures still outstanding — in which case the
`as_completed` iterator raises `TimeoutError` out of the loop (the
surrounding `try` only wraps `future.result`), so the function never
reaches the lines that record `completed_tasks`/`total_tasks` and never
returns the context. -/
def collectDiagnosticContext (failure : ParsedFailure) (plan : List Task)
    (order : List (Text × Outcome)) (hitDeadline : Bool) :
    Except Unit DiagnosticContext :=
  let ctx0 : DiagnosticContext := { failure := failure }
  let (ctx1, comp) := order.foldl collectStep (ctx0, [])
  if hitDeadline then .error ()
  else .ok { ctx1 with context_metadata :=
    (dSet (dSet ctx1.context_metadata (T "completed_tasks")
            (.list (comp.map .str)))
      (T "total_tasks") (.int plan.length)) }

/-! ### Confidence scoring (`_calculate_confidence_score`) -/

/-- The `0.1 * completion_ratio` contribution.  Python compares
`total_tasks > 0` (a `TypeError` — `Option.none` here — unless it is a
number) and, when positive, divides `len(completed_tasks)` (a `TypeError`
unless it is sized) by it. -/
def ratioPart (ct tt : PyVal) : Option ℚ :=
  match tt with
  | .int m =>
    if 0 < m then (pyLen ct).map (fun n => (1/10 : ℚ) * ((n : ℚ) / (m : ℚ)))
    else some 0
  | .rat q =>
    if 0 < q then (pyLen ct).map (fun n => (1/10 : ℚ) * ((n : ℚ) / q))
    else some 0
  | _ => Option.none

/-- Embeds `_calculate_confidence_score`; floats are exact rationals, `none` is an
uncaught `TypeError` (swallowed further up by `diagnose_failure`). -/
def calculateConfidenceScore (ctx : DiagnosticContext) : Option ℚ :=
  let s1 : ℚ := if ctx.failure.dag_id ≠ T "unknown_dag" then 2/10 else 0
  let s2 : ℚ := if pyTruthy ctx.mwaa_logs then 3/10
                else if pyTruthy ctx.dag_state then 15/100 else 0
  let s3 : ℚ := if pyTruthy ctx.redshift_audit then 2/10 else 0
  let s4 : ℚ := if pyTruthy ctx.cloudwatch_errors then 2/10 else 0
  let ct := (dGet ctx.context_metadata (T "completed_tasks")).getD (.list [])
  let tt := (dGet ctx.context_metadata (T "total_tasks")).getD (.int 1)
  match ratioPart ct tt with
  | Option.none => Option.none
  | some s5 =>
    let score := s1 + s2 + s3 + s4 + s5
    let maxScore : ℚ := 2/10 + 3/10 + 2/10 + 2/10 + 1/10
    some (if 0 < maxScore then min (score / maxScore) 1 else 0)

/-! ### The orchestrator entry point (`diagnose_failure`) -/

/-- Record `DiagnosticResult`. -/
structure DiagnosticResult where
  context : DiagnosticContext
  analysis : Option Text
  confidence_score : ℚ
  processing_time_ms : Int
  services_called : List Text := []
  errors_encountered : List Text := []

/-- Embeds `diagnose_failure`: parse; on success collect, analyse (the LLM call is
an external collaborator whose already-recovered outcome is the `analysis`
parameter), and score.  Any exception escaping a stage — the collection
deadline's `TimeoutError`, or a scoring `TypeError` — is caught by the
outer handler and converted to `None`. -/
def diagnoseFailure (event : SlackEvent) (order : List (Text × Outcome))
    (hitDeadline : Bool) (analysis : Option Text) (elapsedMs : Int) :
    Option DiagnosticResult :=
  match parseSlackEvent event with
  | Option.none => Option.none
  | some failure =>
    match collectDiagnosticContext failure (planDiagnosticTasks failure) order hitDeadline with
    | .error _ => Option.none
    | .ok ctx =>
      match calculateConfidenceScore ctx with
      | Option.none => Option.none
      | some conf =>
        some { context := ctx, analysis := analysis, confidence_score := conf,
               processing_time_ms := elapsedMs }

/-- How many probe futures a call to `diagnose_failure` submits: none when
parsing rejects the event, otherwise one per planned task. -/
def probesExecuted (event : SlackEvent) : Nat :=
  match parseSlackEvent event with
  | Option.none => 0
  | some failure => (planDiagnosticTasks failure).length

/-! ### Concrete inputs used by the claims -/

/-- Scenario A input text (spec §8.7). -/
def tA : Text := T "❌ Task has failed... DAG: etl_orders\nTask: load_data\nExecution Time: 2024-01-01T00:00:00\nException: AirflowSensorTimeout ... timeout of 2400.0\nLog URL: [http://x/log]"

/-- The Slack channel the scenario events arrive on. -/
def chA : Text := T "C123"

/-- The parsed scenario A failure. -/
def fA : ParsedFailure := parseFailureDetails tA chA Option.none

/-- Scenario A as a Slack event (a human-authored message). -/
def evA : SlackEvent := ⟨some ⟨tA, chA, Option.none, PyVal.none⟩⟩

/-- A completion order for scenario A's three probes in which `mwaa_logs`
and `dag_state` succeed and `cloudwatch_errors` raises. -/
def ordA : List (Text × Outcome) :=
  [(T "mwaa_logs", .ok (.str (T "scheduler log lines"))),
   (T "dag_state", .ok (.dict [(T "state", .str (T "failed"))])),
   (T "cloudwatch_errors", .exn (T "ThrottlingException"))]

/-- A collection run in which only `dag_state` completed before the global
deadline elapsed, leaving the other probes outstanding. -/
def ordC1 : List (Text × Outcome) :=
  [(T "dag_state", .ok (.dict [(T "state", .str (T "running"))]))]

/-- Scenario B input text (spec §8.8). -/
def tB : Text := T "DAG sales_dbt failed CosmosDbtRunError Database Error in model dim_customers"

/-- The parsed scenario B failure. -/
def fB : ParsedFailure := parseFailureDetails tB chA Option.none

/-- A text containing the substring `DAG etl_orders failed` after an earlier
match of the same pattern. -/
def t5bad : Text := T "DAG foo failed and DAG etl_orders failed"

/-- A text with a conflicting generic `dag:` match before the
`DAG etl_orders failed` occurrence. -/
def t5wit : Text := T "dag: wrong_dag stuff DAG etl_orders failed"

/-- A gate-passing text whose `Error:` capture is entirely whitespace. -/
def t8bad : Text := T "Error: "

/-- A gate-passing text whose `Error:` capture has visible characters. -/
def t8wit : Text := T "Error: disk full on worker"

/-- Scenario C input text (spec §8.9): not a failure notification. -/
def tC : Text := T "lunch order ready"

/-- Scenario C as a Slack event. -/
def evC : SlackEvent := ⟨some ⟨tC, chA, Option.none, PyVal.none⟩⟩

/-- A concrete diagnostic context for evaluating the scorer: known DAG,
MWAA logs present, one of two tasks completed. -/
def ctxW : DiagnosticContext :=
  { failure := fA, mwaa_logs := .str (T "log"),
    context_metadata := [(T "completed_tasks", .list [.str (T "mwaa_logs")]),
                         (T "total_tasks", .int 2)] }

/-- Audit rows returned by the `redshift_audit` probe. -/
def rowsA : List PyVal := [PyVal.dict [(T "query", PyVal.int 1)]]

/-- Error rows returned by the `redshift_errors` probe. -/
def rowsB : List PyVal :=
  [PyVal.dict [(T "err", PyVal.str (T "x"))], PyVal.dict []]

/-- A fresh context for scenario B. -/
def ctxR0 : DiagnosticContext := { failure := fB }

/-- Context `ctxR0` after applying the `redshift_audit` result. -/
def ctxR1 : DiagnosticContext := { failure := fB, redshift_audit := PyVal.list rowsA }

/-- Context `ctxR1` after applying the `redshift_errors` result. -/
def ctxR2 : DiagnosticContext :=
  { failure := fB, redshift_audit := PyVal.list (rowsA ++ rowsB) }

/-- The context scenario A's collection produces under `ordA`. -/
def ctxA : DiagnosticContext :=
  { failure := fA, mwaa_logs := PyVal.str (T "scheduler log lines"),
    redshift_audit := PyVal.none, cloudwatch_errors := PyVal.none,
    dag_state := PyVal.dict [(T "state", PyVal.str (T "failed"))],
    context_metadata :=
      [(T "cloudwatch_errors_error", PyVal.str (T "ThrottlingException")),
       (T "completed_tasks",
        PyVal.list [PyVal.str (T "mwaa_logs"), PyVal.str (T "dag_state")]),
       (T "total_tasks", PyVal.int 3)] }

/-- The context scenario A's collection produces when `dag_state` and
`mwaa_logs` return `v1` and `v2` and `cloudwatch_errors` raises `e`. -/
def ctxC6 (v1 v2 : PyVal) (e : Text) : DiagnosticContext :=
  { failure := fA, mwaa_logs := v2, redshift_audit := PyVal.none,
    cloudwatch_errors := PyVal.none, dag_state := v1,
    context_metadata :=
      [(T "cloudwatch_errors_error", PyVal.str e),
       (T "completed_tasks",
        PyVal.list [PyVal.str (T "dag_state"), PyVal.str (T "mwaa_logs")]),
       (T "total_tasks", PyVal.int 3)] }

/-- A bot-authored Slack message. -/
def msgBot : SlackMessage := ⟨T "DAG x failed", chA, Option.none, PyVal.str (T "B42")⟩

/-- A Slack message with empty text. -/
def msgEmpty : SlackMessage := ⟨[], chA, Option.none, PyVal.none⟩

/-! ## Helper lemmas -/

/-- Scoring scenario A's collected context: known DAG (0.2), MWAA logs
(0.3), no Redshift or CloudWatch data, completion ratio 2/3. -/
theorem score_ctxA :
    calculateConfidenceScore ctxA
      = some (2/10 + 3/10 + 0 + 0 + (1/10) * (2/3 : ℚ)) := by
  have h1 : (ctxA.failure.dag_id ≠ T "unknown_dag") = True := eq_true (by decide)
  have h2 : pyTruthy ctxA.mwaa_logs = true := rfl
  have h3 : pyTruthy ctxA.redshift_audit = false := rfl
  have h4 : pyTruthy ctxA.cloudwatch_errors = false := rfl
  have h5 : dGet ctxA.context_metadata (T "completed_tasks")
      = some (PyVal.list [PyVal.str (T "mwaa_logs"), PyVal.str (T "dag_state")]) := rfl
  have h6 : dGet ctxA.context_metadata (T "total_tasks") = some (PyVal.int 3) := rfl
  simp only [calculateConfidenceScore, h1, h2, h3, h4, h5, h6, if_true,
    Bool.false_eq_true, if_false, Option.getD_some, ratioPart, pyLen]
  norm_num [min_def]

/-- Scoring the witness context `ctxW`: known DAG (0.2), MWAA logs (0.3),
completion ratio 1/2. -/
theorem score_ctxW : calculateConfidenceScore ctxW = some (11/20 : ℚ) := by
  have h1 : (ctxW.failure.dag_id ≠ T "unknown_dag") = True := eq_true (by decide)
  have h2 : pyTruthy ctxW.mwaa_logs = true := rfl
  have h3 : pyTruthy ctxW.redshift_audit = false := rfl
  have h4 : pyTruthy ctxW.cloudwatch_errors = false := rfl
  have h5 : dGet ctxW.context_metadata (T "completed_tasks")
      = some (PyVal.list [PyVal.str (T "mwaa_logs")]) := rfl
  have h6 : dGet ctxW.context_metadata (T "total_tasks") = some (PyVal.int 2) := rfl
  simp only [calculateConfidenceScore, h1, h2, h3, h4, h5, h6, if_true,
    Bool.false_eq_true, if_false, Option.getD_some, ratioPart, pyLen]
  norm_num [min_def]

/-- A `ratioPart` value, when defined, is non-negative. -/
theorem ratioPart_nonneg (ct tt : PyVal) (s : ℚ) (h : ratioPart ct tt = some s) :
    0 ≤ s := by
  cases tt with
  | int m =>
    simp only [ratioPart] at h
    split at h
    · cases hn : pyLen ct with
      | none => rw [hn] at h; simp at h
      | some n =>
        rw [hn] at h
        have hs : (1/10 : ℚ) * ((n : ℚ) / (m : ℚ)) = s := Option.some.inj h
        rw [← hs]
        have hm : (0:ℚ) < (m:ℚ) := by exact_mod_cast ‹0 < m›
        positivity
    · simp only [Option.some.injEq] at h
      subst h
      exact le_refl 0
  | rat qq =>
    simp only [ratioPart] at h
    split at h
    · cases hn : pyLen ct with
      | none => rw [hn] at h; simp at h
      | some n =>
        rw [hn] at h
        have hs : (1/10 : ℚ) * ((n : ℚ) / qq) = s := Option.some.inj h
        rw [← hs]
        have hm : (0:ℚ) < qq := ‹0 < qq›
        positivity
    · simp only [Option.some.injEq] at h
      subst h
      exact le_refl 0
  | none => exact Option.noConfusion h
  | str s' => exact Option.noConfusion h
  | list l => exact Option.noConfusion h
  | dict d => exact Option.noConfusion h

/-- A successful exact-prefix test decomposes the text. -/
theorem isPrefT_ex (n h : Text) (hp : isPrefT n h = true) : ∃ r, h = n ++ r := by
  induction n generalizing h with
  | nil => exact ⟨h, rfl⟩
  | cons a as ih =>
    cases h with
    | nil => cases hp
    | cons b bs =>
      simp only [isPrefT, Bool.and_eq_true, beq_iff_eq] at hp
      obtain ⟨rfl, hp2⟩ := hp
      obtain ⟨r, rfl⟩ := ih bs hp2
      exact ⟨r, rfl⟩

/-- A successful substring test decomposes the text. -/
theorem containsSub_ex (hay needle : Text) (h : containsSub hay needle = true) :
    ∃ p r, hay = p ++ (needle ++ r) := by
  induction hay with
  | nil =>
    simp only [containsSub, List.isEmpty_iff] at h
    exact ⟨[], [], by simp [h]⟩
  | cons a r ih =>
    simp only [containsSub, Bool.or_eq_true] at h
    rcases h with h | h
    · obtain ⟨rest, hrest⟩ := isPrefT_ex needle (a :: r) h
      exact ⟨[], rest, by simp [hrest]⟩
    · obtain ⟨p, rr, hpr⟩ := ih h
      exact ⟨a :: p, rr, by simp [hpr]⟩

/-- If a single-position matcher succeeds at some suffix, the left-to-right
scan succeeds on the whole text. -/
theorem scanFirst_isSome_append {α : Type} (m : Text → Option α) (p u : Text)
    (h : (m u).isSome = true) : (scanFirst m (p ++ u)).isSome = true := by
  induction p with
  | nil =>
    cases u with
    | nil => simpa [scanFirst] using h
    | cons c r =>
      simp only [List.nil_append, scanFirst]
      rcases hm : m (c :: r) with _ | x
      · rw [hm] at h; cases h
      · simp
  | cons a p' ih =>
    simp only [List.cons_append, scanFirst]
    rcases hm : m (a :: (p' ++ u)) with _ | x
    · simpa using ih
    · simp

/-- The `dag_failure` pattern matches at any position starting with the
literal `DAG etl_orders failed`, capturing `etl_orders`. -/
theorem dagFailureAt_lit (rest : Text) :
    dagFailureAt (T "DAG etl_orders failed" ++ rest) = some (T "etl_orders") := rfl

/-- Whitespace characters are fixed by `Char.toLower`. -/
theorem toLower_ws (c : Char) (h : isWS c = true) : c.toLower = c := by
  simp only [isWS, Bool.or_eq_true, beq_iff_eq] at h
  rcases h with ((((h | h) | h) | h) | h) | h <;> subst h <;> decide

/-- Stripping keeps a string non-empty when it contains a non-whitespace
character. -/
theorem stripT_ne_nil (l : Text) (c : Char) (hc : c ∈ l) (hws : isWS c = false) :
    stripT l ≠ [] := by
  intro hnil
  unfold stripT at hnil
  rw [List.reverse_eq_nil_iff, List.dropWhile_eq_nil_iff] at hnil
  have h1 : ∀ x ∈ l.dropWhile isWS, isWS x = true := by
    intro x hx
    exact hnil x (List.mem_reverse.mpr hx)
  have h2 : ∀ x ∈ l, isWS x = true := by
    intro x hx
    rw [← List.takeWhile_append_dropWhile (p := isWS) (l := l)] at hx
    rcases List.mem_append.mp hx with hx | hx
    · exact List.mem_takeWhile_imp hx
    · exact h1 x hx
  rw [h2 c hc] at hws
  cases hws

/-- A case-insensitive substring whose head is not whitespace forces a
non-whitespace character in the original text. -/
theorem exists_nonws_of_containsLower (t : Text) (hd : Char) (tl : Text)
    (h : containsSub (toLowerT t) (hd :: tl) = true) (hhd : isWS hd = false) :
    ∃ c ∈ t, isWS c = false := by
  obtain ⟨p, r, heq⟩ := containsSub_ex _ _ h
  have hmem : hd ∈ toLowerT t := by rw [heq]; simp
  obtain ⟨c, hc, hlc⟩ := List.mem_map.mp hmem
  refine ⟨c, hc, ?_⟩
  by_contra hcontra
  have hct : isWS c = true := by revert hcontra; cases isWS c <;> simp
  rw [toLower_ws c hct] at hlc
  rw [hlc] at hct
  rw [hct] at hhd
  cases hhd

/-- A text passing the failure-indicator gate contains a non-whitespace
character. -/
theorem gate_nonws (t : Text) (h : isAirflowFailure t = true) :
    ∃ c ∈ t, isWS c = false := by
  unfold isAirflowFailure at h
  rw [List.any_eq_true] at h
  obtain ⟨w, hw, hcw⟩ := h
  fin_cases hw <;> exact exists_nonws_of_containsLower _ _ _ hcw (by decide)

/-- A line matched by the error/failed/exception scan contains a
non-whitespace character. -/
theorem lineIndic_nonws (line : Text) (h : lineIndic line = true) :
    ∃ c ∈ line, isWS c = false := by
  unfold lineIndic at h
  rw [Bool.or_eq_true, Bool.or_eq_true] at h
  rcases h with (h | h) | h <;>
    exact exists_nonws_of_containsLower _ _ _ h (by decide)

/-- Splitting a text with a non-whitespace character starts with a
non-empty word. -/
theorem splitWS_ne_nil (t : Text) (c : Char) (hc : c ∈ t) (hws : isWS c = false) :
    ∃ w ws, splitWS t = w :: ws ∧ w ≠ [] := by
  induction t with
  | nil => cases hc
  | cons a r ih =>
    rcases List.mem_cons.mp hc with rfl | hmem
    · refine ⟨c :: r.takeWhile (fun x => !isWS x),
        splitWS (r.dropWhile (fun x => !isWS x)), ?_, by simp⟩
      simp only [splitWS]
      rw [if_neg (by simp [hws])]
    · by_cases ha : isWS a = true
      · obtain ⟨w, ws, hw, hne⟩ := ih hmem
        refine ⟨w, ws, ?_, hne⟩
        simp only [splitWS]
        rw [if_pos ha]
        exact hw
      · refine ⟨a :: r.takeWhile (fun x => !isWS x),
          splitWS (r.dropWhile (fun x => !isWS x)), ?_, by simp⟩
        simp only [splitWS]
        rw [if_neg ha]

/-- Joining a non-empty first word yields a non-empty string. -/
theorem joinSp_ne_nil (w : Text) (l : List Text) (hw : w ≠ []) :
    joinSp (w :: l) ≠ [] := by
  cases l with
  | nil => simpa [joinSp] using hw
  | cons x xs => simp [joinSp]

/-! ## Claims -/

/-- C1, counterexample to the claim as stated: scenario A parses and plans
three probes, only `dag_state` completes before the global deadline, and the
diagnosis returns null rather than a non-null `DiagnosticResult` built from
what was collected. -/
theorem claim_C1_counterexample :
    (parseSlackEvent evA).isSome = true ∧
    diagnoseFailure evA ordC1 true Option.none 0 = Option.none :=
  ⟨rfl, rfl⟩

/-- C1 (amended): when the global deadline elapses with probes still
outstanding, the `TimeoutError` raised by the completion iterator escapes
the collection loop — `completed_tasks`/`total_tasks` are never recorded and
no context is returned — and the orchestrator's catch-all converts the whole
diagnosis to a null result instead of proceeding to scoring. -/
theorem claim_C1 (event : SlackEvent) (order : List (Text × Outcome))
    (analysis : Option Text) (ms : Int) :
    (∀ (failure : ParsedFailure) (plan : List Task),
      collectDiagnosticContext failure plan order true = .error ()) ∧
    diagnoseFailure event order true analysis ms = Option.none := by
  constructor
  · intro failure plan
    simp [collectDiagnosticContext]
  · cases h : parseSlackEvent event <;>
      simp [diagnoseFailure, h, collectDiagnosticContext]

/-- C2, counterexample to the claim as stated: on the scenario B text the
`sql` pattern (matching `Database`) fires before the `dbt` pattern in the
fixed table order, so `errorType` is `"sql"`, not `"dbt"`. -/
theorem claim_C2_counterexample :
    (parseFailureMessage tB chA Option.none).map ParsedFailure.error_type
      = some (T "sql") ∧ T "sql" ≠ T "dbt" :=
  ⟨rfl, by decide⟩

/-- C2 (amended): for the scenario B text, classify returns
`errorType = "sql"` (the ordered pattern table reaches `sql` via `Database`
before consulting `dbt`); the plan still includes `redshift_audit` with the
extracted model name `dim_customers` as filter argument (the dbt branch also
fires on `error_type == "sql"`) and `redshift_errors` with the 24h lookback,
and does not include `cloudwatch_errors`. -/
theorem claim_C2 :
    parseFailureMessage tB chA Option.none = some fB
    ∧ fB.error_type = T "sql"
    ∧ (planDiagnosticTasks fB).map Task.name
        = [T "dag_state", T "redshift_audit", T "redshift_errors"]
    ∧ (planDiagnosticTasks fB).map Task.args
        = [[.str (T "sales_dbt")], [.str (T "dim_customers")], [.int 24]]
    ∧ T "cloudwatch_errors" ∉ (planDiagnosticTasks fB).map Task.name := by
  refine ⟨rfl, rfl, rfl, rfl, ?_⟩
  decide

/-- C4, counterexample to the claim as stated: on the scenario A text the
generic `task[:\s]+` fallback matches `Task has failed` first, so
`taskId = "has"`, not `"load_data"`; and the greedy trailing `[^\s]*` of the
log-URL pattern captures the closing bracket, so
`logUrl = "http://x/log]"`, not `"http://x/log"`. -/
theorem claim_C4_counterexample :
    (parseFailureMessage tA chA Option.none).map ParsedFailure.task_id
      = some (some (T "has"))
    ∧ some (T "has") ≠ some (T "load_data")
    ∧ (parseFailureMessage tA chA Option.none).map ParsedFailure.log_url
      = some (some (T "http://x/log]"))
    ∧ some (T "http://x/log]") ≠ some (T "http://x/log") :=
  ⟨rfl, by decide, rfl, by decide⟩

/-- C4 (amended): scenario A yields `dagId = "etl_orders"`,
`taskId = "has"` (the generic fallback's first match),
`errorType = "timeout"`, `logUrl = "http://x/log]"` (greedy capture); the
plan is exactly `{dag_state, mwaa_logs, cloudwatch_errors}`; and when
`mwaa_logs` and `dag_state` succeed while `cloudwatch_errors` fails the
confidence score equals `0.2 + 0.3 + 0 + 0 + 0.1 × (2/3)`. -/
theorem claim_C4 :
    parseFailureMessage tA chA Option.none = some fA
    ∧ fA.dag_id = T "etl_orders"
    ∧ fA.task_id = some (T "has")
    ∧ fA.error_type = T "timeout"
    ∧ fA.log_url = some (T "http://x/log]")
    ∧ (planDiagnosticTasks fA).map Task.name
        = [T "dag_state", T "mwaa_logs", T "cloudwatch_errors"]
    ∧ (∃ ctx, collectDiagnosticContext fA (planDiagnosticTasks fA) ordA false = .ok ctx
        ∧ calculateConfidenceScore ctx
            = some (2/10 + 3/10 + 0 + 0 + (1/10) * (2/3 : ℚ))) := by
  exact ⟨rfl, rfl, rfl, rfl, rfl, rfl, ⟨ctxA, rfl, score_ctxA⟩⟩

/-- C5, counterexample to the claim as stated: a text containing the
substring `DAG etl_orders failed` for which `dagId` is nevertheless not
`etl_orders`, because an earlier occurrence of the same `DAG <id> failed`
pattern wins the leftmost search. -/
theorem claim_C5_counterexample :
    containsSub t5bad (T "DAG etl_orders failed") = true
    ∧ extractDagId t5bad ≠ T "etl_orders"
    ∧ extractDagId t5bad = T "foo" :=
  ⟨rfl, by decide, rfl⟩

/-- C5 (amended): for every text containing the substring
`DAG etl_orders failed`, cascade pattern (1) `DAG <id> (failed|error)`
matches, so `dagId` is pattern (1)'s leftmost capture and the later cascade
steps — in particular the generic `dag:` fallback — are never consulted;
`dagId = "etl_orders"` whenever that leftmost capture is `etl_orders`
(e.g. when no earlier `DAG <id> failed/error` occurrence precedes it). -/
theorem claim_C5 (t : Text)
    (h : containsSub t (T "DAG etl_orders failed") = true) :
    (scanFirst dagFailureAt t).isSome = true
    ∧ (∀ id0, scanFirst dagFailureAt t = some id0 → extractDagId t = id0) := by
  obtain ⟨p, r, rfl⟩ := containsSub_ex _ _ h
  constructor
  · exact scanFirst_isSome_append dagFailureAt p _
      (by rw [dagFailureAt_lit r]; rfl)
  · intro id0 hid
    unfold extractDagId
    rw [hid]

/-- C5 witness: a text with a conflicting generic `dag:` match earlier in
the text still resolves to `etl_orders` via cascade step (1). -/
theorem claim_C5_witness :
    containsSub t5wit (T "DAG etl_orders failed") = true
    ∧ extractDagId t5wit = T "etl_orders" :=
  ⟨by decide, (claim_C5 t5wit (by decide)).2 (T "etl_orders") (by decide)⟩

/-- C7: for every text containing none of the failure-indicator words (in
lower case), classification rejects: `parse_failure_message` returns no
`ParsedFailure`, `parse_slack_event` on a message with that text returns
none, `diagnose_failure` returns null, and zero probe futures are
submitted. -/
theorem claim_C7 (t ch : Text) (th : Option Text)
    (h : ∀ w ∈ failureIndicators, containsSub (toLowerT t) w = false) :
    parseFailureMessage t ch th = Option.none
    ∧ (∀ (bid : PyVal) (order : List (Text × Outcome)) (hd : Bool)
        (a : Option Text) (ms : Int),
        parseSlackEvent ⟨some ⟨t, ch, th, bid⟩⟩ = Option.none
        ∧ diagnoseFailure ⟨some ⟨t, ch, th, bid⟩⟩ order hd a ms = Option.none
        ∧ probesExecuted ⟨some ⟨t, ch, th, bid⟩⟩ = 0) := by
  have hg : isAirflowFailure t = false := by
    unfold isAirflowFailure
    rw [List.any_eq_false]
    intro w hw
    simp [h w hw]
  constructor
  · unfold parseFailureMessage
    rw [hg]
    rfl
  · intro bid order hd a ms
    have hp : parseSlackEvent ⟨some ⟨t, ch, th, bid⟩⟩ = Option.none := by
      unfold parseSlackEvent
      simp only [hg]
      split_ifs with h1 h2
      · rfl
      · rfl
      · exact absurd rfl h2
    exact ⟨hp, by simp [diagnoseFailure, hp], by simp [probesExecuted, hp]⟩

/-- C7 witness: scenario C's input `lunch order ready` is rejected end to
end. -/
theorem claim_C7_witness :
    parseFailureMessage tC chA Option.none = Option.none
    ∧ parseSlackEvent evC = Option.none
    ∧ diagnoseFailure evC [] false Option.none 0 = Option.none
    ∧ probesExecuted evC = 0 :=
  ⟨(claim_C7 tC chA Option.none (by decide)).1,
   ((claim_C7 tC chA Option.none (by decide)).2 PyVal.none [] false Option.none 0).1,
   ((claim_C7 tC chA Option.none (by decide)).2 PyVal.none [] false Option.none 0).2.1,
   ((claim_C7 tC chA Option.none (by decide)).2 PyVal.none [] false Option.none 0).2.2⟩

/-- C8, counterexample to the claim as stated: the text `"Error: "` passes
the indicator gate, the `Exception:/Error:` capture exists but is a single
whitespace character, and `str.strip()` leaves the empty error message. -/
theorem claim_C8_counterexample :
    isAirflowFailure t8bad = true ∧ extractErrorMessage t8bad = [] :=
  ⟨rfl, rfl⟩

/-- C8 (amended): for every gate-passing text, `errorMessage` is produced
by the three-stage cascade (first `Exception:/Error:` capture; else first
line containing error/failed/exception; else the first 20 words with an
ellipsis when truncated) and is non-empty — except that when the capture of
stage one consists entirely of whitespace, stripping it leaves the empty
string. -/
theorem claim_C8 (t : Text) (hg : isAirflowFailure t = true)
    (hcap : (match scanFirst excAt t with
             | some cap => cap.any (fun c => !isWS c)
             | Option.none => true) = true) :
    extractErrorMessage t ≠ [] := by
  unfold extractErrorMessage
  rcases hexc : scanFirst excAt t with _ | cap
  · simp only [hexc]
    rcases hline : (splitLines t).find? lineIndic with _ | line
    · simp only [hline]
      obtain ⟨c, hc, hcws⟩ := gate_nonws t hg
      obtain ⟨w, ws, hsplit, hwne⟩ := splitWS_ne_nil t c hc hcws
      rw [hsplit]
      rw [show (20 : Nat) = 19 + 1 from rfl, List.take_succ_cons]
      intro hn
      rcases List.append_eq_nil.mp hn with ⟨h1, _⟩
      exact joinSp_ne_nil w _ hwne h1
    · simp only [hline]
      have hli : lineIndic line = true := List.find?_some hline
      obtain ⟨c, hc, hcws⟩ := lineIndic_nonws line hli
      exact stripT_ne_nil line c hc hcws
  · simp only [hexc]
    rw [hexc] at hcap
    obtain ⟨c, hc, hcb⟩ := List.any_eq_true.mp hcap
    have hcws : isWS c = false := by revert hcb; cases isWS c <;> simp
    exact stripT_ne_nil cap c hc hcws

/-- C8 witness: a gate-passing text with a visible `Error:` capture yields
a non-empty error message. -/
theorem claim_C8_witness :
    isAirflowFailure t8wit = true ∧ extractErrorMessage t8wit ≠ [] :=
  ⟨by decide, claim_C8 t8wit (by decide) (by decide)⟩

/-- C6: in scenario A's three-probe plan, when `dag_state` and `mwaa_logs`
return results and `cloudwatch_errors` raises, the two successful probes'
slots hold their results, the raising probe's slot stays unset, its error
string is recorded under `metadata["cloudwatch_errors_error"]`,
`completed_tasks` holds exactly the two successful names, `total_tasks` is
3, and collection still returns a context (the raise never aborts the
batch). -/
theorem claim_C6 (v1 v2 : PyVal) (e : Text) :
    ∃ ctx, collectDiagnosticContext fA (planDiagnosticTasks fA)
        [(T "dag_state", .ok v1), (T "mwaa_logs", .ok v2),
         (T "cloudwatch_errors", .exn e)] false = .ok ctx
      ∧ ctx.dag_state = v1
      ∧ ctx.mwaa_logs = v2
      ∧ ctx.cloudwatch_errors = PyVal.none
      ∧ ctx.redshift_audit = PyVal.none
      ∧ dGet ctx.context_metadata (T "cloudwatch_errors_error") = some (.str e)
      ∧ dGet ctx.context_metadata (T "completed_tasks")
          = some (.list [.str (T "dag_state"), .str (T "mwaa_logs")])
      ∧ dGet ctx.context_metadata (T "total_tasks") = some (.int 3)
      ∧ (planDiagnosticTasks fA).length = 3 :=
  ⟨ctxC6 v1 v2 e, rfl, rfl, rfl, rfl, rfl, rfl, rfl, rfl, rfl⟩

/-- C3: for every diagnostic context — any combination of populated or
absent slots, any `completed_tasks`/`total_tasks` metadata — whenever the
scorer returns a value, that value lies in [0, 1]. -/
theorem claim_C3 (ctx : DiagnosticContext) (q : ℚ)
    (h : calculateConfidenceScore ctx = some q) : 0 ≤ q ∧ q ≤ 1 := by
  simp only [calculateConfidenceScore] at h
  rcases hrp : ratioPart
      ((dGet ctx.context_metadata (T "completed_tasks")).getD (PyVal.list []))
      ((dGet ctx.context_metadata (T "total_tasks")).getD (PyVal.int 1))
    with _ | s5
  · rw [hrp] at h
    exact absurd h (by simp)
  · rw [hrp] at h
    simp only [Option.some.injEq] at h
    have h0 : (0:ℚ) < 2/10 + 3/10 + 2/10 + 2/10 + 1/10 := by norm_num
    rw [if_pos h0] at h
    subst h
    have hs1 : 0 ≤ (if ctx.failure.dag_id ≠ T "unknown_dag" then (2:ℚ)/10 else 0) := by
      split_ifs <;> norm_num
    have hs2 : 0 ≤ (if pyTruthy ctx.mwaa_logs then (3:ℚ)/10
        else if pyTruthy ctx.dag_state then 15/100 else 0) := by
      split_ifs <;> norm_num
    have hs3 : 0 ≤ (if pyTruthy ctx.redshift_audit then (2:ℚ)/10 else 0) := by
      split_ifs <;> norm_num
    have hs4 : 0 ≤ (if pyTruthy ctx.cloudwatch_errors then (2:ℚ)/10 else 0) := by
      split_ifs <;> norm_num
    have hs5 : 0 ≤ s5 := ratioPart_nonneg _ _ _ hrp
    constructor
    · refine le_min ?_ (by norm_num)
      have hsum : 0 ≤ (if ctx.failure.dag_id ≠ T "unknown_dag" then (2:ℚ)/10 else 0)
          + (if pyTruthy ctx.mwaa_logs then (3:ℚ)/10
              else if pyTruthy ctx.dag_state then 15/100 else 0)
          + (if pyTruthy ctx.redshift_audit then (2:ℚ)/10 else 0)
          + (if pyTruthy ctx.cloudwatch_errors then (2:ℚ)/10 else 0) + s5 := by
        have := add_nonneg (add_nonneg (add_nonneg (add_nonneg hs1 hs2) hs3) hs4) hs5
        exact this
      exact div_nonneg hsum (le_of_lt h0)
    · exact min_le_right _ _

/-- C3 witness: a concrete context scores 11/20, which the theorem places
in [0, 1]. -/
theorem claim_C3_witness :
    calculateConfidenceScore ctxW = some (11/20 : ℚ)
    ∧ (0 ≤ (11/20 : ℚ) ∧ (11/20 : ℚ) ≤ 1) :=
  ⟨score_ctxW, claim_C3 ctxW (11/20) score_ctxW⟩

/-- C9: applying a probe result writes only that probe's designated slot —
the parsed failure, the metadata mapping and every other slot are left
unchanged — and applying `redshift_errors` after `redshift_audit` appends
to the existing sequence rather than replacing it. -/
theorem claim_C9 :
    (∀ (ctx : DiagnosticContext) (name : Text) (v : PyVal) (ctx' : DiagnosticContext),
      applyDiagnosticResult ctx name v = .ok ctx' →
      ctx'.failure = ctx.failure ∧ ctx'.context_metadata = ctx.context_metadata)
    ∧ (∀ (ctx : DiagnosticContext) (v : PyVal) (ctx' : DiagnosticContext),
        applyDiagnosticResult ctx (T "dag_state") v = .ok ctx' →
        ctx'.mwaa_logs = ctx.mwaa_logs ∧ ctx'.redshift_audit = ctx.redshift_audit
          ∧ ctx'.cloudwatch_errors = ctx.cloudwatch_errors)
    ∧ (∀ (ctx : DiagnosticContext) (v : PyVal) (ctx' : DiagnosticContext),
        applyDiagnosticResult ctx (T "mwaa_logs") v = .ok ctx' →
        ctx'.dag_state = ctx.dag_state ∧ ctx'.redshift_audit = ctx.redshift_audit
          ∧ ctx'.cloudwatch_errors = ctx.cloudwatch_errors)
    ∧ (∀ (ctx : DiagnosticContext) (v : PyVal) (ctx' : DiagnosticContext),
        applyDiagnosticResult ctx (T "redshift_audit") v = .ok ctx' →
        ctx'.dag_state = ctx.dag_state ∧ ctx'.mwaa_logs = ctx.mwaa_logs
          ∧ ctx'.cloudwatch_errors = ctx.cloudwatch_errors)
    ∧ (∀ (ctx : DiagnosticContext) (v : PyVal) (ctx' : DiagnosticContext),
        applyDiagnosticResult ctx (T "redshift_errors") v = .ok ctx' →
        ctx'.dag_state = ctx.dag_state ∧ ctx'.mwaa_logs = ctx.mwaa_logs
          ∧ ctx'.cloudwatch_errors = ctx.cloudwatch_errors)
    ∧ (∀ (ctx : DiagnosticContext) (v : PyVal) (ctx' : DiagnosticContext),
        applyDiagnosticResult ctx (T "cloudwatch_errors") v = .ok ctx' →
        ctx'.dag_state = ctx.dag_state ∧ ctx'.mwaa_logs = ctx.mwaa_logs
          ∧ ctx'.redshift_audit = ctx.redshift_audit)
    ∧ (∀ (ctx : DiagnosticContext) (a b : List PyVal) (ctx1 ctx2 : DiagnosticContext),
        applyDiagnosticResult ctx (T "redshift_audit") (.list a) = .ok ctx1 →
        applyDiagnosticResult ctx1 (T "redshift_errors") (.list b) = .ok ctx2 →
        ctx2.redshift_audit = .list (a ++ b)) := by
  refine ⟨?_, ?_, ?_, ?_, ?_, ?_, ?_⟩
  · intro ctx name v ctx' h
    unfold applyDiagnosticResult at h
    split_ifs at h
    · cases h; exact ⟨rfl, rfl⟩
    · cases h; exact ⟨rfl, rfl⟩
    · cases h; exact ⟨rfl, rfl⟩
    · -- redshift_errors, truthy audit slot
      cases v with
      | list xs =>
        rcases hra : ctx.redshift_audit with _ | s' | ys | d | n | q' <;>
          simp only [hra] at h
        · exact Except.noConfusion h
        · exact Except.noConfusion h
        · cases h; exact ⟨rfl, rfl⟩
        · exact Except.noConfusion h
        · exact Except.noConfusion h
        · exact Except.noConfusion h
      | none => cases h; exact ⟨rfl, rfl⟩
      | str s' => cases h; exact ⟨rfl, rfl⟩
      | dict d => cases h; exact ⟨rfl, rfl⟩
      | int n => cases h; exact ⟨rfl, rfl⟩
      | rat q' => cases h; exact ⟨rfl, rfl⟩
    · -- redshift_errors, falsy audit slot
      cases v with
      | list xs => cases h; exact ⟨rfl, rfl⟩
      | none => cases h; exact ⟨rfl, rfl⟩
      | str s' => cases h; exact ⟨rfl, rfl⟩
      | dict d => cases h; exact ⟨rfl, rfl⟩
      | int n => cases h; exact ⟨rfl, rfl⟩
      | rat q' => cases h; exact ⟨rfl, rfl⟩
    · cases h; exact ⟨rfl, rfl⟩
    · cases h; exact ⟨rfl, rfl⟩
  · intro ctx v ctx' h
    unfold applyDiagnosticResult at h
    rw [if_pos rfl] at h
    cases h
    exact ⟨rfl, rfl, rfl⟩
  · intro ctx v ctx' h
    unfold applyDiagnosticResult at h
    rw [if_neg (by decide), if_pos rfl] at h
    cases h
    exact ⟨rfl, rfl, rfl⟩
  · intro ctx v ctx' h
    unfold applyDiagnosticResult at h
    rw [if_neg (by decide), if_neg (by decide), if_pos rfl] at h
    cases h
    exact ⟨rfl, rfl, rfl⟩
  · intro ctx v ctx' h
    unfold applyDiagnosticResult at h
    rw [if_neg (by decide), if_neg (by decide), if_neg (by decide),
      if_pos rfl] at h
    cases v <;> simp only [] at h
    case list xs =>
      split at h
      · cases h
        split_ifs <;> exact ⟨rfl, rfl, rfl⟩
      · exact Except.noConfusion h
    all_goals (cases h; split_ifs <;> exact ⟨rfl, rfl, rfl⟩)
  · intro ctx v ctx' h
    unfold applyDiagnosticResult at h
    rw [if_neg (by decide), if_neg (by decide), if_neg (by decide),
      if_neg (by decide), if_pos rfl] at h
    cases h
    exact ⟨rfl, rfl, rfl⟩
  · intro ctx a b ctx1 ctx2 h1 h2
    unfold applyDiagnosticResult at h1 h2
    rw [if_neg (by decide), if_neg (by decide), if_pos rfl] at h1
    cases h1
    rw [if_neg (by decide), if_neg (by decide), if_neg (by decide),
      if_pos rfl] at h2
    cases a with
    | nil =>
      simp only [pyTruthy, List.isEmpty_nil, Bool.not_true,
        Bool.false_eq_true, if_false] at h2
      cases h2
      rfl
    | cons x xs =>
      simp only [pyTruthy, List.isEmpty_cons, Bool.not_false, if_true] at h2
      cases h2
      rfl

/-- C9 witness: the append behaviour at concrete inputs. -/
theorem claim_C9_witness : ctxR2.redshift_audit = PyVal.list (rowsA ++ rowsB) :=
  claim_C9.2.2.2.2.2.2 ctxR0 rowsA rowsB ctxR1 ctxR2 rfl rfl

/-- C10: `parse_slack_event` rejects — returning `None` before any
`ParsedFailure` is built — payloads without an `event` key, messages
carrying a (truthy) `bot_id`, and messages with empty text; and whenever it
returns `None` the diagnosis is null and zero probes are executed. -/
theorem claim_C10 :
    parseSlackEvent ⟨Option.none⟩ = Option.none
    ∧ (∀ m : SlackMessage, pyTruthy m.bot_id = true →
        parseSlackEvent ⟨some m⟩ = Option.none)
    ∧ (∀ m : SlackMessage, m.text = [] →
        parseSlackEvent ⟨some m⟩ = Option.none)
    ∧ (∀ (e : SlackEvent) (order : List (Text × Outcome)) (hd : Bool)
        (a : Option Text) (ms : Int), parseSlackEvent e = Option.none →
        diagnoseFailure e order hd a ms = Option.none ∧ probesExecuted e = 0) := by
  refine ⟨rfl, ?_, ?_, ?_⟩
  · intro m h
    simp [parseSlackEvent, h]
  · intro m h
    simp [parseSlackEvent, h]
  · intro e order hd a ms h
    exact ⟨by simp [diagnoseFailure, h], by simp [probesExecuted, h]⟩

/-- C10 witness: the rejection cases at concrete inputs. -/
theorem claim_C10_witness :
    parseSlackEvent ⟨some msgBot⟩ = Option.none
    ∧ parseSlackEvent ⟨some msgEmpty⟩ = Option.none
    ∧ diagnoseFailure ⟨Option.none⟩ [] false Option.none 0 = Option.none
    ∧ probesExecuted ⟨Option.none⟩ = 0 :=
  ⟨claim_C10.2.1 msgBot (by decide), claim_C10.2.2.1 msgEmpty rfl,
   (claim_C10.2.2.2 ⟨Option.none⟩ [] false Option.none 0 rfl).1,
   (claim_C10.2.2.2 ⟨Option.none⟩ [] false Option.none 0 rfl).2⟩

end OnCallDE
